import Mathlib

/-!
Shallow embedding of the SystemGo execution core.

Namespace `system` embeds `system/job.go`: the job data model, the derived
job state, the merge algebra (`mergeTable`, `mergeWith`) and the runner
(`Run`), the latter as an explicit sequence of primitive state updates so
that intermediate states visible to a concurrent observer can be examined.

Namespace `service` embeds the service unit file (package `service`): the
definition validation (`Define`), the sub-state derivation (`Sub`) and the
activation state machine (`Active`).

Machine-level collaborators (channels, OS processes) are reduced to their
observable facts: a channel is "present" and "closed" flags, an OS process
is "launched" plus an optional terminal status.
-/

namespace system

/-- Job types, from the `jobType` enum in job.go. -/
inductive jobType where
  | start
  | stop
  | reload
  | restart
deriving DecidableEq

/-- Job states, from the `jobState` enum in job.go. -/
inductive jobState where
  | waiting
  | running
  | success
  | failed
deriving DecidableEq

/-- Errors of the job layer.  `unmergeable` is `ErrUnmergeable`
("Unmergeable job types") declared in job.go.  Modelled from the spec:
`depFail` stands for the `ErrDepFail` ("dependency failed") sentinel and
`opFail n` for an arbitrary operational error returned by a unit operation
(start/stop/reload); both are declared outside the excerpted source. -/
inductive JobErr where
  | unmergeable
  | depFail
  | opFail (code : Nat)
deriving DecidableEq

/-- Modelled from the spec: the `set` type of the system package (not part
of the excerpted source) is a set of job references with an idempotent
`Put`; job references are modelled as natural-number identifiers and the
set as a `Finset`, so `Put` is `insert`. -/
abbrev set := Finset Nat

/-- The job record, from the `job` struct in job.go.  The `unit` pointer is
reduced to the identifier `unitId`; the `waitch` channel (nil when the job
is not running) is reduced to a presence flag; `err` is the stored result
(`nil` = no error). -/
structure Job where
  typ : jobType
  unitId : Nat
  wants : set
  requires : set
  conflicts : set
  wantedBy : set
  requiredBy : set
  conflictedBy : set
  after : set
  before : set
  executed : Bool
  waitch : Bool
  err : Option JobErr
deriving DecidableEq

/-- Method `IsRunning` from job.go: the completion channel is non-nil. -/
def Job.IsRunning (j : Job) : Bool := j.waitch

/-- Method `State` from job.go: a switch whose first matching case wins —
running, then waiting, then success, then failed. -/
def Job.State (j : Job) : jobState :=
  if j.IsRunning then .running
  else if !j.executed then .waiting
  else if j.err = none then .success
  else .failed

/-- Method `Success` from job.go. -/
def Job.Success (j : Job) : Bool := j.State == jobState.success

/-- Method `Failed` from job.go. -/
def Job.Failed (j : Job) : Bool := j.State == jobState.failed

/-- Method `isOrphan` from job.go: no incoming relation references the job. -/
def Job.isOrphan (j : Job) : Bool :=
  j.wantedBy = ∅ ∧ j.requiredBy = ∅ ∧ j.conflictedBy = ∅

/-- Constructor `newJob` from job.go: fresh sets, zero values for the remaining fields. -/
def mkJob (t : jobType) (uid : Nat) : Job :=
  { typ := t
    unitId := uid
    wants := ∅
    requires := ∅
    conflicts := ∅
    wantedBy := ∅
    requiredBy := ∅
    conflictedBy := ∅
    after := ∅
    before := ∅
    executed := false
    waitch := false
    err := none }

/-- Table `mergeTable` from job.go: the nested map of compatible job-type pairs
(existing type, incoming type) to the merged type. -/
def mergeTable (existing incoming : jobType) : Option jobType :=
  match existing, incoming with
  | .start, .start => some .start
  | .start, .reload => some .reload
  | .start, .restart => some .restart
  | .reload, .start => some .reload
  | .reload, .restart => some .restart
  | .restart, .start => some .restart
  | .restart, .reload => some .restart
  | _, _ => none

/-- Spec-side definition, for comparison against `mergeTable`: the merge
compatibility table exactly as the claim lists it — the seven listed pairs
map to their merged type, every other pair is absent. -/
def mergeTableSpec (a b : jobType) : Option jobType :=
  (([((.start, .start), .start), ((.start, .reload), .reload),
     ((.start, .restart), .restart), ((.reload, .start), .reload),
     ((.reload, .restart), .restart), ((.restart, .start), .restart),
     ((.restart, .reload), .restart)] :
    List ((jobType × jobType) × jobType)).lookup (a, b))

/-- Method `mergeWith` from job.go, acting on the pair (existing job, incoming
job).  On a table miss it returns `ErrUnmergeable` with both jobs
untouched; on a hit it replaces the existing job's type with the merged
type and `Put`s every element of the incoming job's six relation sets into
the existing job's corresponding sets.  The incoming job is only read; its
post-state is returned unchanged as the second component. -/
def mergeWith (j other : Job) : Job × Job × Option JobErr :=
  match mergeTable j.typ other.typ with
  | none => (j, other, some .unmergeable)
  | some t =>
      ({ j with
          typ := t
          wantedBy := j.wantedBy ∪ other.wantedBy
          requiredBy := j.requiredBy ∪ other.requiredBy
          conflictedBy := j.conflictedBy ∪ other.conflictedBy
          wants := j.wants ∪ other.wants
          requires := j.requires ∪ other.requires
          conflicts := j.conflicts ∪ other.conflicts },
       other, none)

/-- Modelled from the spec: the results of the unit operations
start/stop/reload invoked by `execute` (the system.Unit methods live
outside the excerpted source); `none` is success. -/
structure UnitOps where
  startRes : Option JobErr
  stopRes : Option JobErr
  reloadRes : Option JobErr
deriving DecidableEq

/-- The dispatch of `execute` from job.go: start → unit.start, stop →
unit.stop, restart → unit.stop then (only if that succeeded) unit.start,
reload → unit.reload.  The default branch panics with `ErrUnknownType` and
is unreachable for the closed enum. -/
def executeRes (t : jobType) (ops : UnitOps) : Option JobErr :=
  match t with
  | .start => ops.startRes
  | .stop => ops.stopRes
  | .restart =>
      match ops.stopRes with
      | some e => some e
      | none => ops.startRes
  | .reload => ops.reloadRes

/-- The state visible while `Run` executes: the job value, whether the
unit's active-job back-reference (`j.unit.job`) is set, whether the channel
installed by this run has been closed (releasing all waiters), the pending
return value `err`, and a ghost counter of `execute` invocations
(instrumentation only, no effect on behaviour). -/
structure RunState where
  j : Job
  unitJob : Bool
  chClosed : Bool
  retErr : Option JobErr
  execCount : Nat
deriving DecidableEq

/-- The state at entry to `Run`. -/
def initState (j : Job) (unitJob : Bool) : RunState :=
  { j := j
    unitJob := unitJob
    chClosed := false
    retErr := none
    execCount := 0 }

/-- Step `j.waitch = make(chan ...)`: a fresh, unclosed channel is installed. -/
def stepMakeChan (s : RunState) : RunState :=
  { s with j := { s.j with waitch := true }, chClosed := false }

/-- Step `j.unit.job = j`. -/
def stepSetUnitJob (s : RunState) : RunState := { s with unitJob := true }

/-- Aggregate result of the concurrent dependency waits in `Run`: one
goroutine per element of `j.requires` does `dep.Wait()` and writes
`ErrDepFail` into the shared error unless `dep.Success()`.  `env` gives the
post-`Wait` snapshot of each required job; all failure writes store the
same value, so the aggregate is deterministic. -/
def depsErr (j : Job) (env : Nat → Job) : Option JobErr :=
  if ∀ i ∈ j.requires, (env i).Success = true then none else some .depFail

/-- The join point after the dependency waits: the shared error variable
now holds the aggregated result. -/
def stepDepWait (de : Option JobErr) (s : RunState) : RunState :=
  { s with retErr := de }

/-- Step `err = j.execute()`: sets `executed`, stores the result, bumps the
ghost counter. -/
def stepExecute (ops : UnitOps) (s : RunState) : RunState :=
  { s with
    j := { s.j with executed := true, err := executeRes s.j.typ ops }
    retErr := executeRes s.j.typ ops
    execCount := s.execCount + 1 }

/-- Step `close(j.waitch)`: the completion signal is released. -/
def stepCloseCh (s : RunState) : RunState := { s with chClosed := true }

/-- Step `j.waitch = nil`. -/
def stepNilCh (s : RunState) : RunState :=
  { s with j := { s.j with waitch := false } }

/-- Step `j.unit.job = nil`. -/
def stepClearUnitJob (s : RunState) : RunState := { s with unitJob := false }

/-- The sequence of primitive state updates performed by `Run` in job.go:
install the channel; set the unit's active-job reference; join the
concurrent dependency waits (recording the aggregated error); then, only
when no required dependency failed: execute, close the channel, nil the
channel, clear the unit's active-job reference.  On a dependency failure
`Run` returns early and the last four updates never happen. -/
def runSteps (de : Option JobErr) (ops : UnitOps) :
    List (RunState → RunState) :=
  [stepMakeChan, stepSetUnitJob, stepDepWait de] ++
    match de with
    | some _ => []
    | none => [stepExecute ops, stepCloseCh, stepNilCh, stepClearUnitJob]

/-- All intermediate states of one `Run`, starting from the entry state:
what a concurrent observer may see between any two primitive updates. -/
def runTrace (j : Job) (u : Bool) (env : Nat → Job) (ops : UnitOps) :
    List RunState :=
  (runSteps (depsErr j env) ops).scanl (fun s f => f s) (initState j u)

/-- The final state of one `Run`; `retErr` is `Run`'s return value. -/
def run (j : Job) (u : Bool) (env : Nat → Job) (ops : UnitOps) : RunState :=
  (runSteps (depsErr j env) ops).foldl (fun s f => f s) (initState j u)

/-- A required dependency that has executed and failed. -/
def depFailedJob : Job :=
  { mkJob .start 1 with executed := true, err := some (.opFail 7) }

/-- Environment resolving every job id to the failed dependency. -/
def depEnv : Nat → Job := fun _ => depFailedJob

/-- A fresh job whose sole required dependency is job id 1. -/
def jobWithFailedDep : Job := { mkJob .start 0 with requires := {1} }

/-- Unit operations that all succeed. -/
def anyOps : UnitOps := ⟨none, none, none⟩

/-- A fresh job with no required dependencies. -/
def freeJob : Job := mkJob .start 2

/-- Environment used where no dependency is ever consulted. -/
def envTrivial : Nat → Job := fun _ => mkJob .start 99

/-- A job that has executed successfully. -/
def jobDone : Job := { mkJob .start 5 with executed := true }

/-- Existing pending job used for merge examples. -/
def jMergeA : Job := { mkJob .start 0 with wants := {5}, requires := {6} }

/-- Incoming job used for merge examples. -/
def jMergeB : Job := { mkJob .reload 0 with wants := {5, 7} }

/-- A pending stop job (no merge-table entry for stop). -/
def jStop : Job := mkJob .stop 3

/-- An incoming start job for the unmergeable example. -/
def jIncoming : Job := mkJob .start 4

end system

namespace service

/-- Constant `DEFAULT_TYPE` from the service unit source. -/
def DEFAULT_TYPE : String := "simple"

/-- Sub-state constant `dead`. -/
def dead : String := "dead"

/-- Sub-state constant `startPre`. -/
def startPre : String := "startPre"

/-- Sub-state constant `start`. -/
def start : String := "start"

/-- Sub-state constant `startPost`. -/
def startPost : String := "startPost"

/-- Sub-state constant `running`. -/
def running : String := "running"

/-- Sub-state constant `exited`. -/
def exited : String := "exited"

/-- Sub-state constant `reload`. -/
def reload : String := "reload"

/-- Sub-state constant `stop`. -/
def stop : String := "stop"

/-- Sub-state constant `stopSigabrt`. -/
def stopSigabrt : String := "stopSigabrt"

/-- Sub-state constant `stopSigterm`. -/
def stopSigterm : String := "stopSigterm"

/-- Sub-state constant `stopSigkill`. -/
def stopSigkill : String := "stopSigkill"

/-- Sub-state constant `stopPost`. -/
def stopPost : String := "stopPost"

/-- Sub-state constant `finalSigterm`. -/
def finalSigterm : String := "finalSigterm"

/-- Sub-state constant `finalSigkill`. -/
def finalSigkill : String := "finalSigkill"

/-- Sub-state constant `failed`. -/
def failed : String := "failed"

/-- Sub-state constant `autoRestart`. -/
def autoRestart : String := "autoRestart"

/-- The `supported` map from the service unit source; a Go map lookup
yields the zero value `false` for absent keys. -/
def supported : List (String × Bool) :=
  [("oneshot", true), ("simple", true), ("forking", false),
   ("dbus", false), ("notify", false), ("idle", false)]

/-- Function `Supported` from the service unit source. -/
def Supported (typ : String) : Bool := (supported.lookup typ).getD false

/-- Modelled from the spec: the `unit` package's `ParseErr` wrapper
("field X: reason" entries) and named sentinel errors NotSet, NotSupported,
NotStarted, NotParsed; these live outside the excerpted source. -/
inductive ParseError where
  | notSet
  | notSupported
  | notStarted
  | notParsed
  | parseErr (source : String) (inner : ParseError)
deriving DecidableEq

/-- The `Service` section of the service definition struct.  The Go field
`Type` is rendered `typ` (`Type` is reserved in Lean); the embedded
`unit.Definition` carries no field used by this core and is omitted. -/
structure ServiceSection where
  typ : String := ""
  ExecStart : String := ""
  ExecStop : String := ""
  ExecReload : String := ""
  PIDFile : String := ""
  Restart : String := ""
  RemainAfterExit : Bool := false
deriving DecidableEq

/-- The service unit definition struct. -/
structure Definition where
  service : ServiceSection := {}
deriving DecidableEq

/-- The two observable facts `Sub` reads off a terminated process:
`ProcessState.Exited()` (terminated by normal exit rather than by a
signal) and `ProcessState.Success()` (exit code zero). -/
structure ProcState where
  exited : Bool
  success : Bool
deriving DecidableEq

/-- Model of `exec.Cmd`: the argv it was built from, whether `Process` is
non-nil (the process was launched), and `ProcessState` (non-nil once the
process has terminated and `Wait` returned). -/
structure Cmd where
  argv : List String := []
  process : Bool := false
  processState : Option ProcState := none
deriving DecidableEq

/-- The service unit: its stored definition and its command adapter
(`*exec.Cmd`, nil until `Define` succeeds). -/
structure SvUnit where
  definition : Definition := {}
  cmd : Option Cmd := none
deriving DecidableEq

/-- The outcome of `Define`: success, a parse failure propagated from
`unit.ParseDefinition`, a validation multi-error, or the index panic Go
would hit evaluating `cmd[0]` when `ExecStart` is non-empty whitespace. -/
inductive DefineOutcome where
  | ok
  | parseFailed (e : ParseError)
  | invalid (merr : List ParseError)
  | panicked
deriving DecidableEq

/-- Function `strings.Fields`: the whitespace-separated tokens of a string. -/
def stringFields (s : String) : List String :=
  (s.split (fun c => c.isWhitespace)).filter (fun t => !t.isEmpty)

/-- Method `Define` from the service unit source.  Parsing is delegated to the
external `unit.ParseDefinition`; its result (which starts from
`Service.Type = DEFAULT_TYPE`) is the `parsed` argument.  Validation is a
Go `switch`: only the first matching case appends its entry to the
multi-error.  Only on a fully successful run are the unit's definition and
command adapter assigned. -/
def define (sv : SvUnit) (parsed : Except ParseError Definition) :
    SvUnit × DefineOutcome :=
  match parsed with
  | .error e => (sv, .parseFailed e)
  | .ok d =>
      let merr : List ParseError :=
        if d.service.ExecStart = "" then [.parseErr "ExecStart" .notSet]
        else if !Supported d.service.typ then
          [.parseErr "Type" (.parseErr d.service.typ .notSupported)]
        else []
      if merr.isEmpty then
        let sv1 : SvUnit := { sv with definition := d }
        match stringFields d.service.ExecStart with
        | [] => (sv1, .panicked)
        | c :: args => ({ sv1 with cmd := some { argv := c :: args } }, .ok)
      else (sv, .invalid merr)

/-- The fatal (panic) conditions of the service unit source:
`unit.ErrNotParsed` from `Sub` on an undefined unit, and the
"Unknown service sub state" panic in `Active`. -/
inductive PanicKind where
  | notParsed
  | unknownSubState
deriving DecidableEq

/-- Modelled from the spec: the `unit.Activation` enum
{Inactive, Active, Activating, Deactivating, Failed, Reloading}, declared
in the unit package outside the excerpted source. -/
inductive Activation where
  | Inactive
  | Active
  | Activating
  | Deactivating
  | Failed
  | Reloading
deriving DecidableEq

/-- Method `Sub` from the service unit source: panics with `ErrNotParsed` when
`Cmd` is nil; otherwise a switch in priority order — no process object →
dead; no terminal status yet → running; `Exited() || Success()` → exited
if `RemainAfterExit` else dead; default → failed. -/
def Sub (sv : SvUnit) : Except PanicKind String :=
  match sv.cmd with
  | none => .error .notParsed
  | some c =>
      if c.process = false then .ok dead
      else
        match c.processState with
        | none => .ok running
        | some ps =>
            if ps.exited || ps.success then
              .ok (if sv.definition.service.RemainAfterExit then exited
                   else dead)
            else .ok failed

/-- The switch of `Active` from the service unit source as a function of
the sub-state string; `none` is the "Unknown service sub state" panic. -/
def activeOfSub (s : String) : Option Activation :=
  if s = dead then some .Inactive
  else if s = failed then some .Failed
  else if s = reload then some .Reloading
  else if s = running ∨ s = exited then some .Active
  else if s = start ∨ s = startPre ∨ s = startPost ∨ s = autoRestart then
    some .Activating
  else if s = stop ∨ s = stopSigabrt ∨ s = stopPost ∨ s = stopSigkill ∨
          s = stopSigterm ∨ s = finalSigkill ∨ s = finalSigterm then
    some .Deactivating
  else none

/-- Method `Active` from the service unit source: `Sub` (propagating its panic)
mapped through the activation switch. -/
def ActiveE (sv : SvUnit) : Except PanicKind Activation :=
  match Sub sv with
  | .error e => .error e
  | .ok s =>
      match activeOfSub s with
      | some a => .ok a
      | none => .error .unknownSubState

/-- The sub-state → activation table exactly as the claim lists it
(spec-side list, for comparison against `activeOfSub`). -/
def subActivationTable : List (String × Activation) :=
  [(dead, .Inactive), (failed, .Failed), (reload, .Reloading),
   (running, .Active), (exited, .Active),
   (start, .Activating), (startPre, .Activating),
   (startPost, .Activating), (autoRestart, .Activating),
   (stop, .Deactivating), (stopSigabrt, .Deactivating),
   (stopSigterm, .Deactivating), (stopSigkill, .Deactivating),
   (stopPost, .Deactivating), (finalSigterm, .Deactivating),
   (finalSigkill, .Deactivating)]

/-- A parsed definition with both validation faults: empty `ExecStart` and
unsupported `Type`. -/
def dBothBad : Definition := { service := { typ := "forking", ExecStart := "" } }

/-- A parsed definition with `ExecStart` set but an unsupported `Type`. -/
def dTypeBad : Definition :=
  { service := { typ := "forking", ExecStart := "/bin/y" } }

/-- A unit that has not been defined yet. -/
def svFresh : SvUnit := {}

/-- A unit carrying an earlier successful definition, to observe that a
failed re-`Define` leaves it unchanged. -/
def svPre : SvUnit :=
  { definition := { service := { typ := "oneshot", ExecStart := "/old" } }
    cmd := some { argv := ["/old"] } }

/-- A terminal process status: exited normally, non-zero exit code. -/
def psExitNonzero : ProcState := { exited := true, success := false }

/-- A launched, terminated command whose process exited with a non-zero
code. -/
def cmdExitNonzero : Cmd :=
  { argv := ["/bin/x"], process := true, processState := some psExitNonzero }

/-- A defined unit (`RemainAfterExit` false) whose process exited normally
with a non-zero code. -/
def svExitNonzero : SvUnit :=
  { definition := { service := { typ := "simple", ExecStart := "/bin/x" } }
    cmd := some cmdExitNonzero }

/-- A defined unit that has never been started: `Sub` is `dead`. -/
def svDead : SvUnit :=
  { definition := { service := { typ := "simple", ExecStart := "/bin/x" } }
    cmd := some { argv := ["/bin/x"] } }

end service

/-- C1: `State()` returns exactly one of waiting/running/success/failed,
characterised thus — running iff the job holds an active completion signal;
otherwise waiting iff not yet executed; otherwise success iff the stored
result is error-free and failed iff it carries an error.  Stability of a
terminal state under repeated calls holds because `State` reads the job
without mutating it: in the embedding it is a pure function of the job. -/
theorem c1_state_characterization (j : system.Job) :
    (j.State = .running ↔ j.IsRunning = true) ∧
    (j.State = .waiting ↔ j.IsRunning = false ∧ j.executed = false) ∧
    (j.State = .success ↔
      j.IsRunning = false ∧ j.executed = true ∧ j.err = none) ∧
    (j.State = .failed ↔
      j.IsRunning = false ∧ j.executed = true ∧ j.err ≠ none) := by
  rcases j with ⟨t, uid, w, r, c, wb, rb, cb, af, bf, ex, wc, e⟩
  cases wc <;> cases ex <;> cases e <;>
    simp [system.Job.State, system.Job.IsRunning]

/-- Evaluation of `c1_state_characterization` at a concrete executed job. -/
theorem c1_state_characterization_checked :
    system.Job.State system.jobDone = .success ↔
      system.jobDone.IsRunning = false ∧ system.jobDone.executed = true ∧
        system.jobDone.err = none :=
  (c1_state_characterization system.jobDone).2.2.1

/-- C2: the merge table matches the claim's seven-pair compatibility table
exactly, and `mergeWith` succeeds (no error) precisely on a table hit and
returns the "unmergeable job types" error on every other pair. -/
theorem c2_merge_table_exact :
    (∀ a b : system.jobType,
        system.mergeTable a b = system.mergeTableSpec a b) ∧
    (∀ j other : system.Job,
        (system.mergeWith j other).2.2 =
          (system.mergeTable j.typ other.typ).elim
            (some .unmergeable) (fun _ => none)) := by
  constructor
  · intro a b
    cases a <;> cases b <;> rfl
  · intro j other
    cases h : system.mergeTable j.typ other.typ <;>
      simp [system.mergeWith, h]

/-- Evaluation of `c2_merge_table_exact` at the stop/start pair. -/
theorem c2_merge_table_exact_checked :
    system.mergeTable .stop .start = system.mergeTableSpec .stop .start :=
  c2_merge_table_exact.1 .stop .start

/-- C3: on a table hit `mergeWith` replaces the existing job's type with
the merged type and each of the six relation sets of the result is the
(idempotent, lossless) union of the two jobs' corresponding sets; on a
table miss it returns the unmergeable error with both jobs completely
unchanged. -/
theorem c3_merge_effects :
    (∀ j other : system.Job, ∀ t : system.jobType,
        system.mergeTable j.typ other.typ = some t →
          (system.mergeWith j other).2.2 = none ∧
          (system.mergeWith j other).1.typ = t ∧
          (system.mergeWith j other).1.wants = j.wants ∪ other.wants ∧
          (system.mergeWith j other).1.requires =
            j.requires ∪ other.requires ∧
          (system.mergeWith j other).1.conflicts =
            j.conflicts ∪ other.conflicts ∧
          (system.mergeWith j other).1.wantedBy =
            j.wantedBy ∪ other.wantedBy ∧
          (system.mergeWith j other).1.requiredBy =
            j.requiredBy ∪ other.requiredBy ∧
          (system.mergeWith j other).1.conflictedBy =
            j.conflictedBy ∪ other.conflictedBy) ∧
    (∀ j other : system.Job,
        system.mergeTable j.typ other.typ = none →
          system.mergeWith j other = (j, other, some .unmergeable)) := by
  constructor
  · intro j other t h
    simp [system.mergeWith, h]
  · intro j other h
    simp [system.mergeWith, h]

/-- Witness for C3: a start/reload merge unions the wants sets and yields
type reload; a stop/start merge fails leaving both jobs unchanged. -/
theorem c3_merge_effects_witness :
    ((system.mergeWith system.jMergeA system.jMergeB).1.typ = .reload ∧
     (system.mergeWith system.jMergeA system.jMergeB).1.wants =
       system.jMergeA.wants ∪ system.jMergeB.wants) ∧
    system.mergeWith system.jStop system.jIncoming =
      (system.jStop, system.jIncoming, some .unmergeable) :=
  ⟨⟨(c3_merge_effects.1 system.jMergeA system.jMergeB .reload rfl).2.1,
    (c3_merge_effects.1 system.jMergeA system.jMergeB .reload rfl).2.2.1⟩,
   c3_merge_effects.2 system.jStop system.jIncoming rfl⟩

/-- C10: `mergeWith` never mutates the incoming job, and on the existing
job it leaves the unit reference, the ordering sets `after`/`before`, the
`executed` flag, the stored result and the completion signal unchanged. -/
theorem c10_merge_frame (j other : system.Job) :
    (system.mergeWith j other).2.1 = other ∧
    (system.mergeWith j other).1.unitId = j.unitId ∧
    (system.mergeWith j other).1.after = j.after ∧
    (system.mergeWith j other).1.before = j.before ∧
    (system.mergeWith j other).1.executed = j.executed ∧
    (system.mergeWith j other).1.waitch = j.waitch ∧
    (system.mergeWith j other).1.err = j.err := by
  cases h : system.mergeTable j.typ other.typ <;>
    simp [system.mergeWith, h]

/-- Evaluation of `c10_merge_frame` at a concrete mergeable pair. -/
theorem c10_merge_frame_checked :
    (system.mergeWith system.jMergeA system.jMergeB).2.1 = system.jMergeB :=
  (c10_merge_frame system.jMergeA system.jMergeB).1

/-- C6 (evaluation at the failing input): for a job whose sole required
dependency has terminated failed, `Run` returns the "dependency failed"
error and `execute` is never invoked — but, because the early return skips
every cleanup update, the job is left with its completion channel installed
and never closed, `executed` still false and no stored result, so `State()`
is `running` (not `failed`) from then on. -/
theorem c6_dep_fail_eval :
    (system.run system.jobWithFailedDep true system.depEnv
        system.anyOps).retErr = some .depFail ∧
    (system.run system.jobWithFailedDep true system.depEnv
        system.anyOps).execCount = 0 ∧
    (system.run system.jobWithFailedDep true system.depEnv
        system.anyOps).j.executed = false ∧
    (system.run system.jobWithFailedDep true system.depEnv
        system.anyOps).chClosed = false ∧
    (system.run system.jobWithFailedDep true system.depEnv
        system.anyOps).j.State = .running := by
  decide

/-- C8 (counterexample): the observable pairs (completion signal released,
active-job reference set) along the trace of a completing `Run` on a
dependency-free job.  Index 5 — the state right after `close(j.waitch)` —
is `(true, true)`: the signal is already released while the active-job
reference is still set, because the code releases the signal first and
clears the reference last, the opposite of the claimed order. -/
theorem c8_order_counterexample :
    (system.runTrace system.freeJob false system.envTrivial
        system.anyOps).map (fun s => (s.chClosed, s.unitJob)) =
      [(false, false), (false, false), (false, true), (false, true),
       (false, true), (true, true), (true, true), (true, false)] := by
  decide

/-- C8 (amended): in every execution of `Run` that reaches completion, the
completion signal is released before the active-job reference is cleared;
consequently, from the state update that installs the active-job reference
onward, a concurrent observer never sees a cleared active-job reference
paired with an unreleased signal. -/
theorem c8_release_before_clear (j : system.Job) (u : Bool)
    (env : Nat → system.Job) (ops : system.UnitOps)
    (h : system.depsErr j env = none) :
    ((system.runTrace j u env ops).drop 2).all
      (fun s => s.chClosed || s.unitJob) = true := by
  simp [system.runTrace, system.runSteps, h, List.scanl,
        system.stepMakeChan, system.stepSetUnitJob, system.stepDepWait,
        system.stepExecute, system.stepCloseCh, system.stepNilCh,
        system.stepClearUnitJob, system.initState]

/-- Witness for C8 (amended) at a dependency-free job. -/
theorem c8_release_before_clear_witness :
    system.depsErr system.freeJob system.envTrivial = none ∧
    ((system.runTrace system.freeJob false system.envTrivial
        system.anyOps).drop 2).all
      (fun s => s.chClosed || s.unitJob) = true :=
  ⟨by decide,
   c8_release_before_clear system.freeJob false system.envTrivial
     system.anyOps (by decide)⟩

/-- C4 (counterexample): on a configuration that parses but has both an
empty `ExecStart` and the unsupported type "forking", `Define` returns a
multi-error holding exactly the single "ExecStart not set" entry — the
"unsupported type" entry is absent, so the two faults are not aggregated.
(The validation is a Go `switch`; only its first matching case appends.) -/
theorem c4_single_error_counterexample :
    (service.define service.svFresh (.ok service.dBothBad)).2 =
      .invalid [.parseErr "ExecStart" .notSet] ∧
    service.ParseError.parseErr "Type"
        (.parseErr "forking" .notSupported) ∉
      [service.ParseError.parseErr "ExecStart" service.ParseError.notSet] := by
  decide

/-- C4 (amended): when `ExecStart` is empty, `Define` fails with a
multi-error containing only the "ExecStart not set" entry, regardless of
the declared type; the "unsupported type" entry is produced only when
`ExecStart` is non-empty and the type is unsupported. -/
theorem c4_first_error_only :
    (∀ (sv : service.SvUnit) (d : service.Definition),
        d.service.ExecStart = "" →
          (service.define sv (.ok d)).2 =
            .invalid [.parseErr "ExecStart" .notSet]) ∧
    (∀ (sv : service.SvUnit) (d : service.Definition),
        d.service.ExecStart ≠ "" → service.Supported d.service.typ = false →
          (service.define sv (.ok d)).2 =
            .invalid [.parseErr "Type"
              (.parseErr d.service.typ .notSupported)]) := by
  constructor
  · intro sv d h
    simp [service.define, h]
  · intro sv d h hs
    simp [service.define, h, hs]

/-- Witness for C4 (amended): both branches at concrete definitions. -/
theorem c4_first_error_only_witness :
    (service.dBothBad.service.ExecStart = "" ∧
      (service.define service.svFresh (.ok service.dBothBad)).2 =
        .invalid [.parseErr "ExecStart" .notSet]) ∧
    (service.dTypeBad.service.ExecStart ≠ "" ∧
      service.Supported service.dTypeBad.service.typ = false ∧
      (service.define service.svFresh (.ok service.dTypeBad)).2 =
        .invalid [.parseErr "Type" (.parseErr "forking" .notSupported)]) :=
  ⟨⟨by decide,
    c4_first_error_only.1 service.svFresh service.dBothBad (by decide)⟩,
   ⟨by decide, by decide,
    c4_first_error_only.2 service.svFresh service.dTypeBad
      (by decide) (by decide)⟩⟩

/-- C5 (counterexample): a defined unit whose process was launched and
terminated without success — it exited normally with a non-zero code, so
`Exited()` is true and `Success()` false — takes the exited/dead branch:
with `RemainAfterExit` false, `Sub()` returns `dead`, not `failed`. -/
theorem c5_nonzero_exit_counterexample :
    service.Sub service.svExitNonzero = .ok service.dead ∧
    service.dead ≠ service.failed :=
  ⟨rfl, by decide⟩

/-- C5 (amended): for a launched, terminated process the exited/dead
branch is taken whenever `Exited()` or `Success()` holds — in particular a
normal exit with a non-zero code yields exited/dead — and `Sub()` returns
`failed` only when the process terminated neither by normal exit nor
successfully (e.g. it was killed by a signal). -/
theorem c5_sub_branching (sv : service.SvUnit) (c : service.Cmd)
    (ps : service.ProcState) (hc : sv.cmd = some c) (hp : c.process = true)
    (hps : c.processState = some ps) :
    (ps.exited = false ∧ ps.success = false →
      service.Sub sv = .ok service.failed) ∧
    (ps.exited = true ∨ ps.success = true →
      service.Sub sv =
        .ok (if sv.definition.service.RemainAfterExit then service.exited
             else service.dead)) := by
  constructor
  · rintro ⟨he, hs⟩
    simp [service.Sub, hc, hp, hps, he, hs]
  · intro h
    have hb : (ps.exited || ps.success) = true := by
      rcases h with h | h <;> simp [h]
    simp [service.Sub, hc, hp, hps, hb]

/-- Witness for C5 (amended) at the non-zero normal exit. -/
theorem c5_sub_branching_witness :
    service.svExitNonzero.cmd = some service.cmdExitNonzero ∧
    service.cmdExitNonzero.process = true ∧
    service.cmdExitNonzero.processState = some service.psExitNonzero ∧
    (service.psExitNonzero.exited = true ∨
      service.psExitNonzero.success = true) ∧
    service.Sub service.svExitNonzero = .ok service.dead :=
  ⟨rfl, rfl, rfl, Or.inl rfl,
   (c5_sub_branching service.svExitNonzero service.cmdExitNonzero
      service.psExitNonzero rfl rfl rfl).2 (Or.inl rfl)⟩

/-- C7: `Active()` is the exact closed mapping of `Sub()` through the
claimed table — every listed sub-state maps to its listed activation, any
sub-state outside the table is the fatal "unknown sub state" panic, and
whenever `Sub` yields a sub-state, `Active` is exactly that sub-state
pushed through the table (or the panic on a miss). -/
theorem c7_activation_closed_mapping :
    (service.subActivationTable.all
        (fun p => service.activeOfSub p.1 == some p.2) = true) ∧
    (∀ s : String, s ∉ service.subActivationTable.map Prod.fst →
        service.activeOfSub s = none) ∧
    (∀ (sv : service.SvUnit) (s : String), service.Sub sv = .ok s →
        service.ActiveE sv =
          (service.activeOfSub s).elim (.error .unknownSubState) .ok) := by
  refine ⟨by decide, ?_, ?_⟩
  · intro s hs
    simp only [service.subActivationTable, List.map_cons, List.map_nil,
      List.mem_cons, List.not_mem_nil, or_false, not_or] at hs
    obtain ⟨h1, h2, h3, h4, h5, h6, h7, h8, h9, h10, h11, h12, h13, h14,
      h15, h16⟩ := hs
    simp [service.activeOfSub, h1, h2, h3, h4, h5, h6, h7, h8, h9, h10,
      h11, h12, h13, h14, h15, h16]
  · intro sv s h
    simp only [service.ActiveE, h]
    cases ha : service.activeOfSub s <;> simp [ha]

/-- Witness for C7: an uncovered sub-state panics; a never-started defined
unit maps dead → Inactive. -/
theorem c7_activation_closed_mapping_witness :
    service.activeOfSub "bogus" = none ∧
    service.Sub service.svDead = .ok service.dead ∧
    service.ActiveE service.svDead = .ok .Inactive :=
  ⟨c7_activation_closed_mapping.2.1 "bogus" (by decide), rfl,
   (c7_activation_closed_mapping.2.2 service.svDead service.dead rfl).trans
     rfl⟩

/-- C9: whenever `Define`'s validation fails (empty `ExecStart` or
unsupported type), the unit is returned exactly as it was: neither its
stored definition nor its command adapter is assigned. -/
theorem c9_define_failure_frame (sv : service.SvUnit)
    (parsed : Except service.ParseError service.Definition)
    (merr : List service.ParseError)
    (h : (service.define sv parsed).2 = .invalid merr) :
    (service.define sv parsed).1 = sv := by
  cases parsed with
  | error e => rfl
  | ok d =>
      by_cases h1 : d.service.ExecStart = ""
      · simp [service.define, h1]
      · by_cases h2 : service.Supported d.service.typ
        · exfalso
          simp only [service.define, h1, h2] at h
          cases hf : service.stringFields d.service.ExecStart <;>
            simp [hf] at h
        · simp [service.define, h1, h2]

/-- Witness for C9: a failed re-`Define` leaves a previously defined unit
untouched. -/
theorem c9_define_failure_frame_witness :
    (service.define service.svPre (.ok service.dBothBad)).2 =
      .invalid [.parseErr "ExecStart" .notSet] ∧
    (service.define service.svPre (.ok service.dBothBad)).1 =
      service.svPre :=
  ⟨by decide,
   c9_define_failure_frame service.svPre (.ok service.dBothBad)
     [.parseErr "ExecStart" .notSet] (by decide)⟩
